import Mathlib

/-!
Shallow embedding of the rule-based fraud scoring engine of
src/fraud_detector.py.  Machine reals (Python floats) are modelled as
rationals; instants (datetime values) as rational epoch seconds; Python
dictionaries as structures; raising code as Except-valued functions.
The database and the per-rule I/O are passed in explicitly as values.
-/

namespace FraudEngine

/-- Result dictionary produced by one detection rule
(fraud_detector.py, rule functions). -/
structure RuleResult where
  rule_name : String
  triggered : Bool
  weight : ℚ
  category : String
  details : List String
  severity : String
  deriving DecidableEq

/-- The incoming transaction dictionary, restricted to the keys the embedded
functions read.  Keys the source reads with dict.get are Option-valued. -/
structure Transaction where
  transaction_id : Option String
  user_id : String
  amount : ℚ
  timestamp : ℚ
  merchant_id : Option String
  location_country : Option String
  location_city : Option String
  deriving DecidableEq

/-- One element of the list built by get_user_transaction_history: the
per-transaction dictionary handed to the pandas DataFrame in
build_user_profile. -/
structure HistRecord where
  amount : ℚ
  timestamp : ℚ
  hour : ℕ
  day_of_week : ℕ
  country : String
  city : String
  category : String
  card_present : Bool
  deriving DecidableEq

/-- A row of the transactions table as read by
get_merchant_transactions_in_window. -/
structure TxnRow where
  user_id : String
  merchant_category : String
  timestamp : ℚ
  amount : ℚ
  deriving DecidableEq

/-- The user behavioral profile dictionary.  The cold-start dictionary for a
user without history carries no last_location / last_transaction_time keys,
hence those fields are Option-valued.  The std_transaction_amount key (an
irrational square root) is read only through coefficient-of-variation
comparisons, which are embedded below as squared comparisons, so it is not
carried as a field. -/
structure UserProfile where
  transaction_count : ℕ
  avg_transaction_amount : ℚ
  max_transaction_amount : ℚ
  common_hours : List ℕ
  common_days : List ℕ
  common_countries : List String
  common_cities : List String
  common_categories : List String
  last_location : Option (String × String)
  last_transaction_time : Option ℚ
  risk_score : ℚ
  deriving DecidableEq

/-- The analysis result dictionary initialised at the top of
analyze_transaction; the optional error key is attached on failure. -/
structure AnalysisResult where
  transaction_id : Option String
  is_fraud : Bool
  fraud_score : ℚ
  confidence : ℚ
  risk_level : String
  triggered_rules : List RuleResult
  rule_details : List (String × RuleResult)
  processing_time_ms : ℕ
  recommendation : String
  error : Option String
  deriving DecidableEq

/-- Python division: raises ZeroDivisionError when the denominator is zero
(also for floats). -/
def pyDiv (a b : ℚ) : Except String ℚ :=
  if b = 0 then Except.error "ZeroDivisionError: float division by zero"
  else Except.ok (a / b)

/-- high_amount_rule.  The detail strings for the relative and historical
thresholds divide the amount by the profile average and maximum while being
formatted, so building them can raise. -/
def high_amount_rule (tx : Transaction) (p : UserProfile) : Except String RuleResult := do
  let amount := tx.amount
  let user_avg := p.avg_transaction_amount
  let user_max := p.max_transaction_amount
  let absolute_threshold : ℚ := 5000
  let relative_threshold := user_avg * 10
  let historical_threshold := user_max * 2
  let (s1, d1) :=
    if amount > absolute_threshold then
      ((0.4 : ℚ), ["Above absolute threshold"])
    else ((0 : ℚ), ([] : List String))
  let (s2, d2) ←
    if amount > relative_threshold then do
      let _ ← pyDiv amount user_avg
      pure ((0.3 : ℚ), ["Above relative threshold"])
    else pure ((0 : ℚ), ([] : List String))
  let (s3, d3) ←
    if amount > historical_threshold then do
      let _ ← pyDiv amount user_max
      pure ((0.3 : ℚ), ["Above historical maximum"])
    else pure ((0 : ℚ), ([] : List String))
  let risk_score := s1 + s2 + s3
  pure
    { rule_name := "High Amount Detection"
      triggered := decide (risk_score > 0)
      weight := min risk_score 0.6
      category := "amount_based"
      details := d1 ++ d2 ++ d3
      severity :=
        if risk_score > 0.5 then "HIGH" else if risk_score > 0.3 then "MEDIUM" else "LOW" }

/-- get_merchant_transactions_in_window: the rows of the transactions table
for the given user and merchant category whose timestamp lies in
[start, stop].  The source additionally orders the rows by timestamp; the
counting logic below does not depend on that order. -/
def get_merchant_transactions_in_window (db : List TxnRow)
    (user_id merchant_category : String) (start stop : ℚ) : List TxnRow :=
  db.filter fun t =>
    decide (t.user_id = user_id) && decide (t.merchant_category = merchant_category) &&
      decide (t.timestamp ≥ start) && decide (t.timestamp ≤ stop)

/-- merchant_velocity_rule.  A missing merchant_id key, and also the falsy
empty string, short-circuit to the untriggered result. -/
def merchant_velocity_rule (db : List TxnRow) (tx : Transaction) : RuleResult :=
  let no_merchant : RuleResult :=
    { rule_name := "Merchant Velocity", triggered := false, weight := 0,
      category := "velocity_based", details := [], severity := "LOW" }
  match tx.merchant_id with
  | none => no_merchant
  | some merchant_id =>
    if merchant_id = "" then no_merchant
    else
      let current_time := tx.timestamp
      let hour_ago := current_time - 3600
      let merchant_transactions :=
        get_merchant_transactions_in_window db tx.user_id merchant_id hour_ago current_time
      let (s1, f1) :=
        if merchant_transactions.length ≥ 3 then
          ((0.4 : ℚ), ["transactions to same merchant in 1 hour"])
        else ((0 : ℚ), ([] : List String))
      let five_minutes_ago := current_time - 300
      let recent_merchant_transactions :=
        merchant_transactions.filter fun t => decide (t.timestamp ≥ five_minutes_ago)
      let (s2, f2) :=
        if recent_merchant_transactions.length ≥ 2 then
          ((0.3 : ℚ), ["transactions to same merchant in 5 minutes"])
        else ((0 : ℚ), ([] : List String))
      let risk_score := s1 + s2
      { rule_name := "Merchant Velocity"
        triggered := decide ((f1 ++ f2).length > 0)
        weight := min risk_score 0.5
        category := "velocity_based"
        details := f1 ++ f2
        severity := if risk_score > 0.4 then "HIGH" else "MEDIUM" }

/-- The fixed high-risk country list of location_anomaly_rule. -/
def high_risk_countries : List String := ["Country_X", "Country_Y"]

/-- location_anomaly_rule.  Note that the first-time-user branch adds 0.1 to
the risk accumulator without appending a risk factor. -/
def location_anomaly_rule (tx : Transaction) (p : UserProfile) : RuleResult :=
  let transaction_country := tx.location_country.getD "Unknown"
  let transaction_city := tx.location_city.getD "Unknown"
  let user_countries := p.common_countries
  let user_cities := p.common_cities
  let (s1, f1) :=
    if transaction_country ∉ user_countries then
      if user_countries.length > 0 then
        ((0.4 : ℚ), ["New country: " ++ transaction_country])
      else ((0.1 : ℚ), ([] : List String))
    else ((0 : ℚ), ([] : List String))
  let (s2, f2) :=
    if transaction_city ∉ user_cities ∧ user_cities.length > 5 then
      ((0.3 : ℚ), ["New city: " ++ transaction_city])
    else ((0 : ℚ), ([] : List String))
  let (s3, f3) :=
    if transaction_country ∈ high_risk_countries then
      ((0.5 : ℚ), ["High-risk country: " ++ transaction_country])
    else ((0 : ℚ), ([] : List String))
  let risk_score := s1 + s2 + s3
  let risk_factors := f1 ++ f2 ++ f3
  { rule_name := "Location Anomaly"
    triggered := decide (risk_factors.length > 0)
    weight := min risk_score 0.8
    category := "behavioral"
    details := risk_factors
    severity :=
      if risk_score > 0.7 then "CRITICAL" else if risk_score > 0.4 then "HIGH" else "MEDIUM" }

/-- Largest element of a list of naturals (0 for the empty list). -/
def max_val (l : List ℕ) : ℕ := l.foldr max 0

/-- Highest multiplicity attained by any value of the list
(0 for the empty list). -/
def max_freq (l : List ℕ) : ℕ := (l.map fun x => l.count x).foldr max 0

/-- pandas Series.mode over a list of integers: every value attaining the
maximal multiplicity, in ascending order. -/
def mode_asc (l : List ℕ) : List ℕ :=
  (List.range (max_val l + 1)).filter fun x =>
    decide (0 < l.count x) && decide (l.count x = max_freq l)

/-- pandas value_counts().head(n).index.tolist(): the distinct values sorted
by descending multiplicity, truncated to the n most frequent.  The source
library leaves the relative order of equally frequent values unspecified;
the embedding fixes one stable order. -/
def top_by_count (l : List String) (n : ℕ) : List String :=
  (List.insertionSort (fun x y => l.count y ≤ l.count x) l.dedup).take n

/-- calculate_user_risk_score over the fetched history.  The source compares
the coefficient of variation std / mean (a square root) against 2.0 and 1.0
under a mean > 0 guard; the embedding decides those comparisons equivalently
on the sample variance against the squared thresholds. -/
def calculate_user_risk_score (hist : List HistRecord) : ℚ :=
  match hist with
  | [] => 0.5
  | h :: t =>
    let l := h :: t
    let n : ℚ := l.length
    let amounts := l.map (·.amount)
    let amount_mean := amounts.sum / n
    let rf1 : ℚ :=
      if l.length > 1 then
        let amount_var := (amounts.map fun a => (a - amount_mean) ^ 2).sum / (n - 1)
        if amount_mean > 0 then
          if amount_var > 4 * amount_mean ^ 2 then 0.3
          else if amount_var > amount_mean ^ 2 then 0.1
          else 0
        else 0
      else 0
    let unique_hours := (l.map (·.hour)).dedup.length
    let rf2 : ℚ :=
      if unique_hours > 15 then 0.2
      else if unique_hours < 3 ∧ l.length > 10 then 0.1
      else 0
    let unique_countries := (l.map (·.country)).dedup.length
    let rf3 : ℚ :=
      if unique_countries > 5 then 0.3 else if unique_countries > 3 then 0.1 else 0
    let rf4 : ℚ :=
      if l.length > 1 then
        let ts := l.map (·.timestamp)
        let time_span := (ts.foldr max h.timestamp - ts.foldr min h.timestamp) / 86400
        if time_span > 0 then
          let transactions_per_day := n / time_span
          if transactions_per_day > 10 then 0.4
          else if transactions_per_day > 5 then 0.2
          else 0
        else 0
      else 0
    let cnp : ℚ := ((l.filter fun r => !r.card_present).length : ℚ) / n
    let rf5 : ℚ := if cnp > 0.8 then 0.3 else if cnp > 0.5 then 0.1 else 0
    min (0.2 + (rf1 + rf2 + rf3 + rf4 + rf5)) 1

/-- The neutral profile dictionary returned by build_user_profile for a user
whose fetched history is empty. -/
def cold_start_profile : UserProfile :=
  { transaction_count := 0
    avg_transaction_amount := 0
    max_transaction_amount := 0
    common_hours := []
    common_days := []
    common_countries := []
    common_cities := []
    common_categories := []
    last_location := none
    last_transaction_time := none
    risk_score := 0.5 }

/-- build_user_profile over the fetched history (newest first as delivered by
get_user_transaction_history).  df.iloc[-1] is the final row of the
DataFrame, embedded as List.getLast. -/
def build_user_profile (hist : List HistRecord) : UserProfile :=
  match hist with
  | [] => cold_start_profile
  | h :: t =>
    let l := h :: t
    let amounts := l.map (·.amount)
    let last_row := l.getLast (List.cons_ne_nil h t)
    { transaction_count := l.length
      avg_transaction_amount := amounts.sum / (l.length : ℚ)
      max_transaction_amount := amounts.foldr max h.amount
      common_hours := (mode_asc (l.map (·.hour))).take 3
      common_days := (mode_asc (l.map (·.day_of_week))).take 3
      common_countries := top_by_count (l.map (·.country)) 3
      common_cities := top_by_count (l.map (·.city)) 5
      common_categories := top_by_count (l.map (·.category)) 5
      last_location := some (last_row.country, last_row.city)
      last_transaction_time := some last_row.timestamp
      risk_score := calculate_user_risk_score l }

/-- get_user_profile with the user-profile TTLCache modelled as an
association list and the database fetch passed in as the fetched history.
The 600 second expiry is a property of wall-clock time across calls and is
outside the per-call properties proved below. -/
def get_user_profile (cache : List (String × UserProfile))
    (fetched : List HistRecord) (user_id : String) :
    UserProfile × List (String × UserProfile) :=
  match cache.lookup user_id with
  | some p => (p, cache)
  | none =>
    let p := build_user_profile fetched
    (p, (user_id, p) :: cache)

/-- calculate_confidence over the triggered rule list. -/
def calculate_confidence (triggered_rules : List RuleResult) : ℚ :=
  if triggered_rules.isEmpty then 1
  else
    let total_weight := (triggered_rules.map (·.weight)).sum
    let rule_count : ℚ := triggered_rules.length
    let agreement_factor := min (rule_count / 3) 1
    let weight_factor := min total_weight 1
    (agreement_factor + weight_factor) / 2

/-- calculate_risk_level. -/
def calculate_risk_level (fraud_score : ℚ) : String :=
  if fraud_score ≥ 0.8 then "CRITICAL"
  else if fraud_score ≥ 0.6 then "HIGH"
  else if fraud_score ≥ 0.3 then "MEDIUM"
  else "LOW"

/-- get_recommendation. -/
def get_recommendation (fraud_score confidence : ℚ) : String :=
  if fraud_score ≥ 0.8 ∧ confidence ≥ 0.7 then "BLOCK"
  else if fraud_score ≥ 0.6 then "REVIEW"
  else if fraud_score ≥ 0.4 then "MONITOR"
  else "APPROVE"

/-- The analysis_result dictionary as initialised at the top of
analyze_transaction. -/
def init_result (txid : Option String) : AnalysisResult :=
  { transaction_id := txid
    is_fraud := false
    fraud_score := 0
    confidence := 0
    risk_level := "LOW"
    triggered_rules := []
    rule_details := []
    processing_time_ms := 0
    recommendation := "APPROVE"
    error := none }

/-- The body of the rule loop of analyze_transaction for one successfully
returned rule result: a triggered rule is appended to triggered_rules, its
weight added to the (not yet clamped) fraud_score, and recorded in
rule_details. -/
def apply_rule (acc : AnalysisResult) (r : RuleResult) : AnalysisResult :=
  if r.triggered then
    { acc with
      triggered_rules := acc.triggered_rules ++ [r]
      fraud_score := acc.fraud_score + r.weight
      rule_details := acc.rule_details ++ [(r.rule_name, r)] }
  else acc

/-- The rule loop of analyze_transaction: each entry of the outcome list is
one rule invocation, which either returns a RuleResult or raises.  The first
raise aborts the loop with the exception message. -/
def run_rules (acc : AnalysisResult) :
    List (Except String RuleResult) → AnalysisResult × Option String
  | [] => (acc, none)
  | Except.ok r :: rest => run_rules (apply_rule acc r) rest
  | Except.error e :: _ => (acc, some e)

/-- The I/O-dependent outcomes of one analyze_transaction call: the outcome
of the profile fetch, the outcome of each rule invocation in catalog order
(the six rules perform database reads and can also raise on their own), and
the measured elapsed wall-clock milliseconds.  Everything after the rule
loop (clamping, confidence, risk level, recommendation, is_fraud, timing
arithmetic) is total pure code and cannot raise. -/
structure PipelineEnv where
  profile : Except String UserProfile
  ruleOutcomes : List (Except String RuleResult)
  elapsed_ms : ℕ

/-- analyze_transaction: initialise the result, fetch the profile, run the
rule loop, then aggregate; any raise is caught by the surrounding
try/except, which attaches the message under the error key of the partial
result and returns it. -/
def analyze_transaction (env : PipelineEnv) (tx : Transaction) : AnalysisResult :=
  let init := init_result tx.transaction_id
  match env.profile with
  | Except.error e => { init with error := some e }
  | Except.ok _ =>
    match run_rules init env.ruleOutcomes with
    | (acc, some e) => { acc with error := some e }
    | (acc, none) =>
      let fraud_score := min acc.fraud_score 1
      let confidence := calculate_confidence acc.triggered_rules
      { acc with
        fraud_score := fraud_score
        confidence := confidence
        risk_level := calculate_risk_level fraud_score
        recommendation := get_recommendation fraud_score confidence
        is_fraud := decide (fraud_score > 0.5)
        processing_time_ms := env.elapsed_ms }

/-- The weight carried by a successful rule invocation outcome (0 for a
raise). -/
def ok_weight : Except String RuleResult → ℚ
  | Except.ok r => r.weight
  | Except.error _ => 0

/-- Specification-side characterization of the list of common hours/days:
an ascending list of values all attaining the maximal multiplicity of l,
which omits a maximally frequent value only when already full (3 entries)
with smaller values. -/
def takes_smallest_modes (l : List ℕ) (out : List ℕ) : Prop :=
  out.Pairwise (· < ·) ∧
    (∀ x ∈ out, 0 < l.count x ∧ l.count x = max_freq l) ∧
    ∀ x, 0 < l.count x → l.count x = max_freq l → x ∉ out →
      out.length = 3 ∧ ∀ z ∈ out, z < x

/-- A sample incoming transaction. -/
def tx_sample : Transaction :=
  ⟨some "tx-1", "user-1", 100, 1700000000, some "m-77", some "US", some "NYC"⟩

/-- A transaction with a positive amount, for evaluation against the
cold-start profile. -/
def tx_c9 : Transaction :=
  ⟨some "tx-9", "user-9", 100, 1700000000, some "m-77", some "US", some "NYC"⟩

/-- A triggered High Amount result at its weight cap. -/
def rule_high_sample : RuleResult :=
  ⟨"High Amount Detection", true, 0.6, "amount_based", ["Above absolute threshold"], "HIGH"⟩

/-- A triggered Round Amount result at its weight cap. -/
def rule_round_sample : RuleResult :=
  ⟨"Round Amount Detection", true, 0.4, "amount_based", ["Round hundred amount"], "MEDIUM"⟩

/-- A triggered Transaction Velocity result at its weight cap. -/
def rule_velocity_sample : RuleResult :=
  ⟨"Transaction Velocity", true, 0.7, "velocity_based", ["26 transactions in 1_hour"], "CRITICAL"⟩

/-- A pipeline run whose first three rules trigger at their caps before the
fourth rule invocation raises on a lost database connection. -/
def env_c1 : PipelineEnv :=
  ⟨Except.ok cold_start_profile,
    [Except.ok rule_high_sample, Except.ok rule_round_sample,
      Except.ok rule_velocity_sample, Except.error "database connection lost"], 4⟩

/-- A pipeline run whose first rule triggers with weight 0.6 before the
second rule invocation raises. -/
def env_c2 : PipelineEnv :=
  ⟨Except.ok cold_start_profile,
    [Except.ok rule_high_sample, Except.error "database connection lost"], 2⟩

/-- A pipeline run in which every step succeeds and exactly one rule
triggers. -/
def env_one_ok : PipelineEnv :=
  ⟨Except.ok cold_start_profile, [Except.ok rule_high_sample], 2⟩

/-- A fetched history whose hour column is [1, 1, 2, 3]: three distinct
hours, a single maximally frequent one. -/
def hist_c6 : List HistRecord :=
  [⟨50, 400, 1, 1, "US", "NYC", "retail", true⟩,
    ⟨60, 300, 1, 1, "US", "NYC", "retail", true⟩,
    ⟨70, 200, 2, 2, "US", "NYC", "retail", true⟩,
    ⟨80, 100, 3, 3, "US", "NYC", "retail", true⟩]

/-- A two-element fetched history, newest first: the head (timestamp 200,
US/NYC) is the most recent transaction, the tail record (timestamp 100,
FR/Paris) the oldest. -/
def hist_c7 : List HistRecord :=
  [⟨50, 200, 10, 1, "US", "NYC", "retail", true⟩,
    ⟨60, 100, 9, 2, "FR", "Paris", "retail", false⟩]

/-- A transactions table for the merchant velocity scenario. -/
def db_c8 : List TxnRow :=
  [⟨"user-1", "m-77", 1000, 20⟩,
    ⟨"user-1", "m-77", 3500, 30⟩,
    ⟨"user-1", "m-77", 3900, 40⟩,
    ⟨"user-2", "m-77", 3900, 10⟩,
    ⟨"user-1", "m-88", 3900, 10⟩]

/-- The transaction analysed against db_c8: same user, merchant m-77, at
time 4000. -/
def tx_c8 : Transaction :=
  ⟨some "tx-8", "user-1", 25, 4000, some "m-77", some "US", some "NYC"⟩

/-- Specification-side predicate: a table row belongs to the trailing-hour
window of the transaction for merchant identifier m - same user, same
merchant category, timestamp within the hour ending at the transaction
time. -/
def in_merchant_window (tx : Transaction) (m : String) (t : TxnRow) : Bool :=
  decide (t.user_id = tx.user_id) && decide (t.merchant_category = m) &&
    decide (t.timestamp ≥ tx.timestamp - 3600) && decide (t.timestamp ≤ tx.timestamp)

/-- Specification-side predicate: a table row falls within the trailing
five minutes of the transaction. -/
def in_recent_window (tx : Transaction) (t : TxnRow) : Bool :=
  decide (t.timestamp ≥ tx.timestamp - 300)

/-! Helper lemmas about multiplicities and modes. -/

theorem le_foldr_max (L : List ℕ) (a : ℕ) (h : a ∈ L) : a ≤ L.foldr max 0 := by
  induction L with
  | nil => cases h
  | cons b t ih =>
    simp only [List.foldr_cons]
    rcases List.mem_cons.mp h with rfl | h
    · exact le_max_left _ _
    · exact le_trans (ih h) (le_max_right _ _)

theorem count_le_max_freq (l : List ℕ) (x : ℕ) : l.count x ≤ max_freq l := by
  by_cases hx : x ∈ l
  · exact le_foldr_max _ _ (List.mem_map_of_mem (fun y => l.count y) hx)
  · simp [List.count_eq_zero_of_not_mem hx]

theorem mem_mode_asc {l : List ℕ} {x : ℕ} :
    x ∈ mode_asc l ↔ 0 < l.count x ∧ l.count x = max_freq l := by
  unfold mode_asc
  simp only [List.mem_filter, List.mem_range, Bool.and_eq_true, decide_eq_true_eq]
  constructor
  · rintro ⟨-, h⟩; exact h
  · rintro ⟨h1, h2⟩
    refine ⟨?_, h1, h2⟩
    have hx : x ∈ l := List.count_pos_iff.mp h1
    exact Nat.lt_succ_of_le (le_foldr_max _ _ hx)

theorem mode_asc_pairwise (l : List ℕ) : (mode_asc l).Pairwise (· < ·) := by
  unfold mode_asc
  exact (List.pairwise_lt_range _).filter _

theorem takes_smallest_modes_take3 (l : List ℕ) :
    takes_smallest_modes l ((mode_asc l).take 3) := by
  refine ⟨?_, ?_, ?_⟩
  · exact List.Pairwise.sublist (List.take_sublist _ _) (mode_asc_pairwise l)
  · intro x hx
    exact mem_mode_asc.mp (List.mem_of_mem_take hx)
  · intro x h1 h2 hnot
    have hxF : x ∈ mode_asc l := mem_mode_asc.mpr ⟨h1, h2⟩
    have hsplit : mode_asc l = (mode_asc l).take 3 ++ (mode_asc l).drop 3 :=
      (List.take_append_drop _ _).symm
    have hxdrop : x ∈ (mode_asc l).drop 3 := by
      rcases List.mem_append.mp (hsplit ▸ hxF) with h | h
      · exact absurd h hnot
      · exact h
    have hlen : 3 < (mode_asc l).length := by
      have hne : (mode_asc l).drop 3 ≠ [] := List.ne_nil_of_mem hxdrop
      by_contra hle
      push_neg at hle
      exact hne (List.drop_eq_nil_of_le hle)
    constructor
    · rw [List.length_take]; omega
    · have hp : ((mode_asc l).take 3 ++ (mode_asc l).drop 3).Pairwise (· < ·) := by
        rw [← hsplit]; exact mode_asc_pairwise l
      intro z hz
      exact (List.pairwise_append.mp hp).2.2 z hz x hxdrop

/-! Claims C5, C6, C7, C9. -/

/-- C5 counterexample: for a user with no fetched transactions and an empty
cache, get_user_profile does return the cold-start profile but inserts it
into the cache, so the cache state is changed by the call. -/
theorem c5_cold_start_is_cached :
    get_user_profile [] [] "user-1" = (cold_start_profile, [("user-1", cold_start_profile)]) ∧
      ([("user-1", cold_start_profile)] : List (String × UserProfile)) ≠ [] :=
  ⟨rfl, by simp⟩

/-- C5 amended: when the user is absent from the cache and the history fetch
returns no transactions, get_user_profile returns the cold-start profile
(zero counts and amounts, empty common lists, risk score 0.5) and inserts
that profile into the cache under the user id. -/
theorem c5_amended_cold_start_cached (cache : List (String × UserProfile)) (uid : String)
    (h : cache.lookup uid = none) :
    get_user_profile cache [] uid = (cold_start_profile, (uid, cold_start_profile) :: cache) ∧
      cold_start_profile.transaction_count = 0 ∧
      cold_start_profile.avg_transaction_amount = 0 ∧
      cold_start_profile.max_transaction_amount = 0 ∧
      cold_start_profile.common_hours = [] ∧
      cold_start_profile.common_days = [] ∧
      cold_start_profile.common_countries = [] ∧
      cold_start_profile.common_cities = [] ∧
      cold_start_profile.common_categories = [] ∧
      cold_start_profile.risk_score = 0.5 := by
  refine ⟨?_, rfl, rfl, rfl, rfl, rfl, rfl, rfl, rfl, rfl⟩
  unfold get_user_profile
  rw [h]
  rfl

/-- C5 witness: a concrete cache miss for a no-history user. -/
theorem c5_witness :
    get_user_profile [("user-2", cold_start_profile)] [] "user-9" =
      (cold_start_profile, ("user-9", cold_start_profile) :: [("user-2", cold_start_profile)]) :=
  (c5_amended_cold_start_cached [("user-2", cold_start_profile)] "user-9" (by decide)).1

/-- C6 counterexample: on the hour column [1, 1, 2, 3] the built profile
keeps only the single modal hour, so common_hours is not the top-3 most
frequent hours even though three distinct hours occur. -/
theorem c6_mode_not_top3 :
    (build_user_profile hist_c6).common_hours = [1] ∧
      ((hist_c6.map (·.hour)).dedup).length = 3 ∧
      (build_user_profile hist_c6).common_hours.length ≠ 3 :=
  ⟨by decide, by decide, by decide⟩

/-- C6 amended: for a nonempty fetched history, common_hours and common_days
are the values attaining the maximal multiplicity of the hour and
day-of-week columns, listed in ascending order and truncated to the 3
smallest when more than three values tie. -/
theorem c6_amended_modes (hist : List HistRecord) (h : hist ≠ []) :
    takes_smallest_modes (hist.map (·.hour)) (build_user_profile hist).common_hours ∧
      takes_smallest_modes (hist.map (·.day_of_week)) (build_user_profile hist).common_days := by
  obtain ⟨a, t, rfl⟩ := List.exists_cons_of_ne_nil h
  exact ⟨takes_smallest_modes_take3 _, takes_smallest_modes_take3 _⟩

/-- C6 witness: the characterization holds on a concrete nonempty history. -/
theorem c6_witness : List.Pairwise (· < ·) (build_user_profile hist_c6).common_hours :=
  (c6_amended_modes hist_c6 (by simp [hist_c6])).1.1

/-- C7: on a newest-first history (timestamps 200 then 100), the built
profile records the oldest transaction (timestamp 100, FR/Paris) under
last_transaction_time and last_location, not the most recent one
(timestamp 200). -/
theorem c7_last_fields_are_oldest :
    hist_c7.map (·.timestamp) = [200, 100] ∧
      (build_user_profile hist_c7).last_transaction_time = some 100 ∧
      (build_user_profile hist_c7).last_location = some ("FR", "Paris") ∧
      (100 : ℚ) ≠ 200 := by
  refine ⟨by norm_num [hist_c7], ?_, ?_, by norm_num⟩
  · norm_num [build_user_profile, hist_c7, List.getLast]
  · norm_num [build_user_profile, hist_c7, List.getLast]

/-- C9: evaluated against the cold-start profile (average and maximum 0), a
transaction with positive amount 100 exceeds the relative threshold, and
formatting the relative-threshold detail divides the amount by the zero
average: high_amount_rule raises ZeroDivisionError instead of returning a
triggered result of weight 0.6. -/
theorem c9_high_amount_cold_start_raises :
    (0 : ℚ) < tx_c9.amount ∧
      high_amount_rule tx_c9 cold_start_profile =
        Except.error "ZeroDivisionError: float division by zero" := by
  constructor
  · norm_num [tx_c9]
  · norm_num [high_amount_rule, cold_start_profile, pyDiv, tx_c9, Bind.bind, Except.bind]

/-! Helper lemmas about the rule loop of analyze_transaction. -/

theorem run_rules_map_ok (rs : List RuleResult) (acc : AnalysisResult) :
    run_rules acc (rs.map Except.ok) = (rs.foldl apply_rule acc, none) := by
  induction rs generalizing acc with
  | nil => rfl
  | cons r t ih =>
    simp only [List.map_cons, run_rules, List.foldl_cons]
    exact ih _

theorem run_rules_error (oks : List RuleResult) (acc : AnalysisResult) (e : String)
    (rest : List (Except String RuleResult)) :
    run_rules acc (oks.map Except.ok ++ Except.error e :: rest) =
      (oks.foldl apply_rule acc, some e) := by
  induction oks generalizing acc with
  | nil => rfl
  | cons r t ih =>
    simp only [List.map_cons, List.cons_append, run_rules, List.foldl_cons]
    exact ih _

theorem outcomes_split (os : List (Except String RuleResult)) :
    (∃ rs : List RuleResult, os = rs.map Except.ok) ∨
      ∃ (oks : List RuleResult) (e : String) (rest : List (Except String RuleResult)),
        os = oks.map Except.ok ++ Except.error e :: rest := by
  induction os with
  | nil => exact Or.inl ⟨[], rfl⟩
  | cons o t ih =>
    cases o with
    | ok r =>
      rcases ih with ⟨rs, rfl⟩ | ⟨oks, e, rest, rfl⟩
      · exact Or.inl ⟨r :: rs, rfl⟩
      · exact Or.inr ⟨r :: oks, e, rest, rfl⟩
    | error e => exact Or.inr ⟨[], e, t, rfl⟩

theorem foldl_apply_rule_spec (rs : List RuleResult) (acc : AnalysisResult) :
    (rs.foldl apply_rule acc).fraud_score
        = acc.fraud_score + ((rs.filter (·.triggered)).map (·.weight)).sum ∧
      (rs.foldl apply_rule acc).triggered_rules
        = acc.triggered_rules ++ rs.filter (·.triggered) ∧
      (rs.foldl apply_rule acc).confidence = acc.confidence ∧
      (rs.foldl apply_rule acc).error = acc.error ∧
      (rs.foldl apply_rule acc).is_fraud = acc.is_fraud := by
  induction rs generalizing acc with
  | nil => simp
  | cons r t ih =>
    obtain ⟨h1, h2, h3, h4, h5⟩ := ih (apply_rule acc r)
    by_cases hr : r.triggered = true
    · have hf : (r :: t).filter (·.triggered) = r :: t.filter (·.triggered) :=
        List.filter_cons_of_pos (by simpa using hr)
      have ha : apply_rule acc r =
          { acc with
            triggered_rules := acc.triggered_rules ++ [r]
            fraud_score := acc.fraud_score + r.weight
            rule_details := acc.rule_details ++ [(r.rule_name, r)] } := by
        simp [apply_rule, hr]
      rw [List.foldl_cons, hf]
      refine ⟨?_, ?_, ?_, ?_, ?_⟩
      · rw [h1, ha]; simp; ring
      · rw [h2, ha]; simp
      · rw [h3, ha]
      · rw [h4, ha]
      · rw [h5, ha]
    · have hf : (r :: t).filter (·.triggered) = t.filter (·.triggered) :=
        List.filter_cons_of_neg (by simpa using hr)
      have ha : apply_rule acc r = acc := by simp [apply_rule, hr]
      rw [List.foldl_cons, hf, ha]
      exact ih acc

theorem analyze_transaction_profile_error (e : String)
    (outs : List (Except String RuleResult)) (ms : ℕ) (tx : Transaction) :
    analyze_transaction ⟨Except.error e, outs, ms⟩ tx =
      { init_result tx.transaction_id with error := some e } := rfl

theorem analyze_transaction_rule_error (p : UserProfile) (oks : List RuleResult) (e : String)
    (rest : List (Except String RuleResult)) (ms : ℕ) (tx : Transaction) :
    analyze_transaction ⟨Except.ok p, oks.map Except.ok ++ Except.error e :: rest, ms⟩ tx =
      { oks.foldl apply_rule (init_result tx.transaction_id) with error := some e } := by
  simp only [analyze_transaction, run_rules_error]

theorem analyze_ok_proj (p : UserProfile) (rs : List RuleResult) (ms : ℕ) (tx : Transaction) :
    (analyze_transaction ⟨Except.ok p, rs.map Except.ok, ms⟩ tx).fraud_score
        = min ((rs.filter (·.triggered)).map (·.weight)).sum 1 ∧
      (analyze_transaction ⟨Except.ok p, rs.map Except.ok, ms⟩ tx).confidence
        = calculate_confidence (rs.filter (·.triggered)) ∧
      (analyze_transaction ⟨Except.ok p, rs.map Except.ok, ms⟩ tx).error = none ∧
      (analyze_transaction ⟨Except.ok p, rs.map Except.ok, ms⟩ tx).is_fraud
        = decide (min ((rs.filter (·.triggered)).map (·.weight)).sum 1 > 0.5) := by
  obtain ⟨h1, h2, h3, h4, h5⟩ := foldl_apply_rule_spec rs (init_result tx.transaction_id)
  simp only [analyze_transaction, run_rules_map_ok]
  refine ⟨?_, ?_, ?_, ?_⟩
  · rw [h1]; simp [init_result]
  · rw [h2]; simp [init_result]
  · rw [h4]; rfl
  · rw [h1]; simp [init_result]

theorem calculate_confidence_bounds (rs : List RuleResult)
    (h : ∀ r ∈ rs, 0 ≤ r.weight) :
    0 ≤ calculate_confidence rs ∧ calculate_confidence rs ≤ 1 := by
  have htw : 0 ≤ (rs.map (·.weight)).sum := by
    apply List.sum_nonneg
    intro x hx
    obtain ⟨r, hr, rfl⟩ := List.mem_map.mp hx
    exact h r hr
  have ha1 : (0 : ℚ) ≤ min ((rs.length : ℚ) / 3) 1 := le_min (by positivity) (by norm_num)
  have ha2 : min ((rs.length : ℚ) / 3) 1 ≤ 1 := min_le_right _ _
  have hb1 : (0 : ℚ) ≤ min (rs.map (·.weight)).sum 1 := le_min htw (by norm_num)
  have hb2 : min (rs.map (·.weight)).sum 1 ≤ 1 := min_le_right _ _
  by_cases he : rs.isEmpty = true
  · unfold calculate_confidence
    rw [if_pos he]
    norm_num
  · unfold calculate_confidence
    rw [if_neg he]
    constructor
    · show (0 : ℚ) ≤ (min ((rs.length : ℚ) / 3) 1 + min (rs.map (·.weight)).sum 1) / 2
      linarith
    · show (min ((rs.length : ℚ) / 3) 1 + min (rs.map (·.weight)).sum 1) / 2 ≤ 1
      linarith

/-! Claims C1, C2, C3, C4. -/

/-- C1 counterexample: a run in which three rules trigger at their caps
(0.6, 0.4, 0.7) before the fourth rule invocation raises returns, through
the error-containment path, a fraud_score of 1.7, violating
fraud_score ≤ 1.0. -/
theorem c1_error_path_score_above_one :
    1 < (analyze_transaction env_c1 tx_sample).fraud_score := by
  norm_num [env_c1, tx_sample, analyze_transaction, run_rules, apply_rule, init_result,
    rule_high_sample, rule_round_sample, rule_velocity_sample]

/-- C1 amended: with every rule invocation outcome carrying a nonnegative
weight, the returned fraud_score is nonnegative and the confidence lies in
[0, 1] on every path, while fraud_score ≤ 1.0 holds on the runs that
complete without an error; on the error-containment path the fraud_score is
the unclamped partial sum of the triggered weights and can exceed 1.0. -/
theorem c1_amended_bounds (env : PipelineEnv) (tx : Transaction)
    (hw : ∀ o ∈ env.ruleOutcomes, 0 ≤ ok_weight o) :
    0 ≤ (analyze_transaction env tx).fraud_score ∧
      0 ≤ (analyze_transaction env tx).confidence ∧
      (analyze_transaction env tx).confidence ≤ 1 ∧
      ((analyze_transaction env tx).error = none →
        (analyze_transaction env tx).fraud_score ≤ 1) := by
  obtain ⟨prof, outs, ms⟩ := env
  simp only at hw
  rcases prof with e | p
  · rw [analyze_transaction_profile_error]
    exact ⟨le_refl 0, le_refl 0, by norm_num [init_result],
      fun hcontra => Option.noConfusion hcontra⟩
  · rcases outcomes_split outs with ⟨rs, rfl⟩ | ⟨oks, e, rest, rfl⟩
    · obtain ⟨hf, hc, he, -⟩ := analyze_ok_proj p rs ms tx
      have hws : ∀ r ∈ rs, 0 ≤ r.weight := by
        intro r hr
        have hmem : Except.ok r ∈ rs.map (Except.ok (ε := String)) :=
          List.mem_map_of_mem _ hr
        simpa [ok_weight] using hw _ hmem
      have hsum : 0 ≤ ((rs.filter (·.triggered)).map (·.weight)).sum := by
        apply List.sum_nonneg
        intro x hx
        obtain ⟨r, hr, rfl⟩ := List.mem_map.mp hx
        exact hws r (List.mem_of_mem_filter hr)
      have hcc := calculate_confidence_bounds (rs.filter (·.triggered))
        (fun r hr => hws r (List.mem_of_mem_filter hr))
      refine ⟨?_, ?_, ?_, ?_⟩
      · rw [hf]; exact le_min hsum (by norm_num)
      · rw [hc]; exact hcc.1
      · rw [hc]; exact hcc.2
      · intro _; rw [hf]; exact min_le_right _ _
    · rw [analyze_transaction_rule_error]
      obtain ⟨h1, -, h3, -, -⟩ := foldl_apply_rule_spec oks (init_result tx.transaction_id)
      have hws : ∀ r ∈ oks, 0 ≤ r.weight := by
        intro r hr
        have hmem : Except.ok r ∈
            oks.map (Except.ok (ε := String)) ++ Except.error e :: rest :=
          List.mem_append_left _ (List.mem_map_of_mem _ hr)
        simpa [ok_weight] using hw _ hmem
      have hsum : 0 ≤ ((oks.filter (·.triggered)).map (·.weight)).sum := by
        apply List.sum_nonneg
        intro x hx
        obtain ⟨r, hr, rfl⟩ := List.mem_map.mp hx
        exact hws r (List.mem_of_mem_filter hr)
      refine ⟨?_, ?_, ?_, fun hcontra => Option.noConfusion hcontra⟩
      · show 0 ≤ (oks.foldl apply_rule (init_result tx.transaction_id)).fraud_score
        rw [h1]; simpa [init_result] using hsum
      · show 0 ≤ (oks.foldl apply_rule (init_result tx.transaction_id)).confidence
        rw [h3]; norm_num [init_result]
      · show (oks.foldl apply_rule (init_result tx.transaction_id)).confidence ≤ 1
        rw [h3]; norm_num [init_result]

/-- C1 witness: the amended bounds at a concrete error-free run. -/
theorem c1_witness : 0 ≤ (analyze_transaction env_one_ok tx_sample).fraud_score :=
  (c1_amended_bounds env_one_ok tx_sample (by
    intro o ho
    simp only [env_one_ok, List.mem_singleton] at ho
    subst ho
    norm_num [ok_weight, rule_high_sample])).1

/-- C2 counterexample: a run whose first rule triggers with weight 0.6
before the second rule invocation raises returns, through the
error-containment path, fraud_score 0.6 > 0.5 while is_fraud is still the
initial false. -/
theorem c2_error_path_is_fraud_stale :
    (analyze_transaction env_c2 tx_sample).is_fraud = false ∧
      (1 : ℚ) / 2 < (analyze_transaction env_c2 tx_sample).fraud_score := by
  constructor <;>
    norm_num [env_c2, tx_sample, analyze_transaction, run_rules, apply_rule, init_result,
      rule_high_sample]

/-- C2 amended: is_fraud equals (fraud_score > 0.5) on every run that
completes without an error; on the error-containment path is_fraud keeps
its initial value false regardless of the partial fraud_score. -/
theorem c2_amended_is_fraud (env : PipelineEnv) (tx : Transaction) :
    ((analyze_transaction env tx).error = none →
        ((analyze_transaction env tx).is_fraud = true ↔
          0.5 < (analyze_transaction env tx).fraud_score)) ∧
      ((analyze_transaction env tx).error ≠ none →
        (analyze_transaction env tx).is_fraud = false) := by
  obtain ⟨prof, outs, ms⟩ := env
  rcases prof with e | p
  · rw [analyze_transaction_profile_error]
    exact ⟨fun hcontra => Option.noConfusion hcontra, fun _ => rfl⟩
  · rcases outcomes_split outs with ⟨rs, rfl⟩ | ⟨oks, e, rest, rfl⟩
    · obtain ⟨hf, -, he, hif⟩ := analyze_ok_proj p rs ms tx
      constructor
      · intro _
        rw [hif, hf]
        simp [decide_eq_true_eq]
      · intro hne
        exact absurd he hne
    · rw [analyze_transaction_rule_error]
      refine ⟨fun hcontra => Option.noConfusion hcontra, fun _ => ?_⟩
      obtain ⟨-, -, -, -, h5⟩ := foldl_apply_rule_spec oks (init_result tx.transaction_id)
      show (oks.foldl apply_rule (init_result tx.transaction_id)).is_fraud = false
      rw [h5]; rfl

/-- C2 witness: the amended equivalence at a concrete error-free run. -/
theorem c2_witness :
    (analyze_transaction env_one_ok tx_sample).is_fraud = true ↔
      0.5 < (analyze_transaction env_one_ok tx_sample).fraud_score :=
  (c2_amended_is_fraud env_one_ok tx_sample).1 rfl

/-- C3: whichever step raises first - the profile fetch or any rule
invocation - analyze_transaction returns (rather than propagates) the
partial result: the fields computed before the failure are kept, the rest
keep their initialised defaults, and the exception message is attached
under the error key.  The returned value is a complete AnalysisResult. -/
theorem c3_error_containment (env : PipelineEnv) (tx : Transaction) :
    (∀ e, env.profile = Except.error e →
        analyze_transaction env tx = { init_result tx.transaction_id with error := some e }) ∧
      (∀ (p : UserProfile) (oks : List RuleResult) (e : String)
          (rest : List (Except String RuleResult)), env.profile = Except.ok p →
        env.ruleOutcomes = oks.map Except.ok ++ Except.error e :: rest →
        analyze_transaction env tx =
          { oks.foldl apply_rule (init_result tx.transaction_id) with error := some e }) := by
  obtain ⟨prof, outs, ms⟩ := env
  constructor
  · rintro e rfl
    exact analyze_transaction_profile_error e outs ms tx
  · rintro p oks e rest rfl rfl
    exact analyze_transaction_rule_error p oks e rest ms tx

/-- C3 witness: a concrete run whose second rule invocation raises. -/
theorem c3_witness :
    analyze_transaction env_c2 tx_sample =
      { [rule_high_sample].foldl apply_rule (init_result tx_sample.transaction_id) with
          error := some "database connection lost" } :=
  (c3_error_containment env_c2 tx_sample).2 cold_start_profile [rule_high_sample]
    "database connection lost" [] rfl rfl

/-- C4: on a run in which every rule invocation returns, fraud_score is the
sum of the triggered weights clamped at 1.0, and confidence is 1.0 with no
triggered rule and otherwise the mean of the agreement factor
min(count / 3, 1) and the weight factor min(total weight, 1). -/
theorem c4_success_aggregation (p : UserProfile) (rs : List RuleResult) (ms : ℕ)
    (tx : Transaction) :
    (analyze_transaction ⟨Except.ok p, rs.map Except.ok, ms⟩ tx).fraud_score
        = min ((rs.filter (·.triggered)).map (·.weight)).sum 1 ∧
      (analyze_transaction ⟨Except.ok p, rs.map Except.ok, ms⟩ tx).confidence
        = (if rs.filter (·.triggered) = [] then 1
            else (min (((rs.filter (·.triggered)).length : ℚ) / 3) 1
                + min ((rs.filter (·.triggered)).map (·.weight)).sum 1) / 2) := by
  obtain ⟨hf, hc, -, -⟩ := analyze_ok_proj p rs ms tx
  refine ⟨hf, ?_⟩
  rw [hc]
  by_cases h : rs.filter (·.triggered) = []
  · simp [calculate_confidence, h]
  · simp [calculate_confidence, h, List.isEmpty_iff]

/-! Claims C8 and C10. -/

/-- C8: with a merchant identifier present (and not the falsy empty
string), the rule counts the same user's rows in the same merchant category
over the trailing hour: the weight is 0.4 for a count of at least 3 plus
0.3 when at least 2 of those rows fall within the trailing five minutes,
capped at 0.5, and the rule triggers exactly when one of the two conditions
holds; without a merchant identifier the rule returns weight 0 and does not
trigger. -/
theorem c8_merchant_velocity (db : List TxnRow) (tx : Transaction) :
    (∀ m : String, tx.merchant_id = some m → m ≠ "" →
        (merchant_velocity_rule db tx).weight =
            min ((if 3 ≤ db.countP (in_merchant_window tx m) then (0.4 : ℚ) else 0) +
                (if 2 ≤ db.countP (fun t => in_recent_window tx t && in_merchant_window tx m t)
                  then (0.3 : ℚ) else 0)) 0.5 ∧
          ((merchant_velocity_rule db tx).triggered = true ↔
            3 ≤ db.countP (in_merchant_window tx m) ∨
              2 ≤ db.countP fun t => in_recent_window tx t && in_merchant_window tx m t)) ∧
      (tx.merchant_id = none ∨ tx.merchant_id = some "" →
        (merchant_velocity_rule db tx).weight = 0 ∧
          (merchant_velocity_rule db tx).triggered = false) := by
  constructor
  · intro m hm hne
    have hn : (get_merchant_transactions_in_window db tx.user_id m
        (tx.timestamp - 3600) tx.timestamp).length = db.countP (in_merchant_window tx m) := by
      unfold get_merchant_transactions_in_window in_merchant_window
      rw [List.countP_eq_length_filter]
    have hn5 : ((get_merchant_transactions_in_window db tx.user_id m
          (tx.timestamp - 3600) tx.timestamp).filter fun t =>
            decide (t.timestamp ≥ tx.timestamp - 300)).length =
        db.countP (fun t => in_recent_window tx t && in_merchant_window tx m t) := by
      unfold get_merchant_transactions_in_window in_recent_window in_merchant_window
      rw [← List.countP_eq_length_filter, List.countP_filter]
    simp only [merchant_velocity_rule, hm]
    rw [if_neg hne, hn, hn5]
    by_cases h3 : 3 ≤ db.countP (in_merchant_window tx m) <;>
      by_cases h2 : 2 ≤ db.countP fun t => in_recent_window tx t && in_merchant_window tx m t <;>
      refine ⟨?_, ?_⟩ <;>
      simp [ge_iff_le, h3, h2]
  · rintro (hm | hm) <;> simp [merchant_velocity_rule, hm]

/-- C8 witness: the weight formula at a concrete table and transaction. -/
theorem c8_witness :
    (merchant_velocity_rule db_c8 tx_c8).weight =
      min ((if 3 ≤ db_c8.countP (in_merchant_window tx_c8 "m-77") then (0.4 : ℚ) else 0) +
          (if 2 ≤ db_c8.countP
                (fun t => in_recent_window tx_c8 t && in_merchant_window tx_c8 "m-77" t)
            then (0.3 : ℚ) else 0)) 0.5 :=
  ((c8_merchant_velocity db_c8 tx_c8).1 "m-77" rfl (by decide)).1

/-- C10: every profile built by build_user_profile carries at most 5 common
cities, so the new-city component of location_anomaly_rule (which requires
more than 5 known cities) never contributes on such profiles: the weight is
exactly the capped sum of the country component (0.4 for a new country with
history, 0.1 without history) and the high-risk-country component. -/
theorem c10_no_city_component (tx : Transaction) (hist : List HistRecord) :
    (build_user_profile hist).common_cities.length ≤ 5 ∧
      (location_anomaly_rule tx (build_user_profile hist)).weight =
        min ((if tx.location_country.getD "Unknown" ∉ (build_user_profile hist).common_countries
              then (if 0 < (build_user_profile hist).common_countries.length
                    then (0.4 : ℚ) else 0.1)
              else 0) +
            (if tx.location_country.getD "Unknown" ∈ high_risk_countries
              then (0.5 : ℚ) else 0)) 0.8 := by
  have hlen : (build_user_profile hist).common_cities.length ≤ 5 := by
    cases hist with
    | nil => simp [build_user_profile, cold_start_profile]
    | cons a t =>
      show (top_by_count ((a :: t).map (·.city)) 5).length ≤ 5
      unfold top_by_count
      exact List.length_take_le _ _
  refine ⟨hlen, ?_⟩
  simp only [location_anomaly_rule]
  have hno : ¬(tx.location_city.getD "Unknown" ∉ (build_user_profile hist).common_cities ∧
      (build_user_profile hist).common_cities.length > 5) := by
    rintro ⟨-, hgt⟩
    omega
  rw [if_neg hno]
  by_cases h1 : tx.location_country.getD "Unknown" ∈ (build_user_profile hist).common_countries <;>
    by_cases h2 : 0 < (build_user_profile hist).common_countries.length <;>
    by_cases h3 : tx.location_country.getD "Unknown" ∈ high_risk_countries <;>
    simp [h1, h2, h3]

end FraudEngine
